import Mathlib

/-!
Verification of the dual-store synchronization layer of the Chinese-AD
language tutor (source: `src/services/gemini.ts`, lines 674-1545, the
persistence module).

The module is embedded shallowly: each coordinator operation becomes a pure
Lean function from its inputs (arguments, the authenticated user, the
outcome the remote store chooses for each remote call, the current store
state) to the new store state, the list of remote calls it attempted, and
its result.  JavaScript truthiness and the `||` / `=== undefined` idioms of
the source are modelled explicitly on `Option` values.  Remote (Firestore)
queries are modelled set-theoretically: an `orderBy`/`limit` query returns
the sorted prefix of the modelled collection, and `set(..., {merge:true})`
overlays the written fields on the existing document.
-/

namespace ChineseAD

/-- HSK levels (enum `HSKLevel` in `types.ts`). -/
inductive HSKLevel where
  | hsk1 | hsk2 | hsk3 | hsk4
deriving DecidableEq, Repr

/-- Flashcard self-assessment ratings (`'hard' | 'good' | 'easy'`). -/
inductive Rating where
  | hard | good | easy
deriving DecidableEq, Repr

/-- Result kinds (`'quiz' | 'exam'`). -/
inductive ResType where
  | quiz | exam
deriving DecidableEq, Repr

/-- Chat roles (`'user' | 'model'`). -/
inductive Role where
  | user | model
deriving DecidableEq, Repr

/-- Error classes a remote (cloud) call can fail with.  `permissionDenied`
models every permission-denied-class signature that `handleCloudError`
recognises; the other constructors are the transient classes. -/
inductive CloudErr where
  | permissionDenied
  | timeout
  | network
deriving DecidableEq, Repr

/-- One attempted remote-store call: the context label the source passes to
`handleCloudError`, and `some ms` when the call is wrapped in `withTimeout`
with limit `ms`, `none` when it is issued bare. -/
structure RemoteCall where
  op : String
  timeoutMs : Option Nat
deriving DecidableEq, Repr

/-- `withTimeout`'s default limit (`ms: number = 2000`). -/
def withTimeoutDefault : Nat := 2000

/-- JS truthiness of a possibly-undefined boolean (`x || false`, `!!x`). -/
def jsTruthy (o : Option Bool) : Bool := o.getD false

/-- JS `x || d` on a possibly-undefined string: falsy (`undefined` or `""`)
selects the fallback. -/
def jsOrStr (o : Option String) (d : String) : String :=
  match o with
  | some s => if s == "" then d else s
  | none => d

/-- JS falsiness of a possibly-undefined string (`!x`). -/
def jsFalsyStr (o : Option String) : Bool :=
  match o with
  | some s => s == ""
  | none => true

/-- `handleCloudError` (gemini.ts:786-797): sets the `cloudDisabled`
circuit breaker exactly on permission-denied-class errors; every other
error class leaves the breaker untouched. -/
def handleCloudError (e : CloudErr) (cloudDisabled : Bool) : Bool :=
  if e = CloudErr.permissionDenied then true else cloudDisabled

/-- `ResultRecord` (`results` rows / `users/{uid}/results` docs). -/
structure ResultRecord where
  type : ResType
  score : Nat
  total : Nat
  level : HSKLevel
  date : String
  timestamp : Nat
deriving DecidableEq, Repr

/-- The in-memory flashcard a UI surface passes to the vocabulary
operations.  Optional properties are `Option`s; `none` is the JS
`undefined`. -/
structure VocabCard where
  character : String
  pinyin : String
  translation : String
  exampleSentence : String
  examplePinyin : Option String
  exampleTranslation : String
  rating : Option Rating
  bookmarked : Option Bool
  customImage : Option String
deriving DecidableEq, Repr

/-- A stored vocabulary record (local `vocabulary` object store).  Records
written by `saveVocabCustomImage` from scratch carry neither `level` nor
`lastReviewed`, hence those are optional too. -/
structure VocabRecord where
  character : String
  pinyin : String
  translation : String
  exampleSentence : String
  examplePinyin : Option String
  exampleTranslation : String
  level : Option HSKLevel
  rating : Option Rating
  bookmarked : Option Bool
  customImage : Option String
  lastReviewed : Option Nat
deriving DecidableEq, Repr

/-- A remote vocabulary document (`users/{uid}/vocabulary/{character}`):
a set of fields, each possibly absent, written through `set(..., {merge:true})`. -/
structure VocabDoc where
  character : Option String
  pinyin : Option String
  translation : Option String
  exampleSentence : Option String
  examplePinyin : Option String
  exampleTranslation : Option String
  level : Option HSKLevel
  rating : Option Rating
  bookmarked : Option Bool
  customImage : Option String
  lastReviewed : Option Nat
deriving DecidableEq, Repr

/-- The empty remote vocabulary document (no fields yet). -/
def emptyVocabDoc : VocabDoc :=
  ⟨none, none, none, none, none, none, none, none, none, none, none⟩

/-- `PronunciationAttempt` plus the composite `id` (`word + "_" + timestamp`). -/
structure PronRecord where
  id : String
  word : String
  heard : String
  pinyin : String
  score : Nat
  feedback : String
  timestamp : Nat
deriving DecidableEq, Repr

/-- A local `daily_stats` row. -/
structure DailyStat where
  date : String
  minutes : Nat
  speakingMinutes : Option Nat
deriving DecidableEq, Repr

/-- A remote `daily_stats` document: written through merges, so every field
may be absent. -/
structure StatDoc where
  date : Option String
  minutes : Option Nat
  speakingMinutes : Option Nat
deriving DecidableEq, Repr

/-- `UserGoals` (all four targets set). -/
structure UserGoals where
  dailyWords : Nat
  dailyMinutes : Nat
  dailySpeakingMinutes : Nat
  dailyPronunciation : Nat
deriving DecidableEq, Repr

/-- A stored goals object, possibly partially populated (legacy data may
lack fields added later). -/
structure PartialGoals where
  dailyWords : Option Nat
  dailyMinutes : Option Nat
  dailySpeakingMinutes : Option Nat
  dailyPronunciation : Option Nat
deriving DecidableEq, Repr

/-- The hardcoded goal defaults of `getUserGoals`. -/
def defaultGoals : UserGoals :=
  { dailyWords := 10, dailyMinutes := 15, dailySpeakingMinutes := 5, dailyPronunciation := 10 }

/-- Saving a full goals object stores every field. -/
def PartialGoals.ofGoals (g : UserGoals) : PartialGoals :=
  ⟨some g.dailyWords, some g.dailyMinutes, some g.dailySpeakingMinutes, some g.dailyPronunciation⟩

/-- A local `global_audio` row (keyed by `text`). -/
structure AudioEntry where
  text : String
  audioData : String
  timestamp : Nat
deriving DecidableEq, Repr

/-- A remote `global_audio_cache` document (added with auto id). -/
structure AudioDoc where
  text : String
  audioData : String
  timestamp : Nat
  contributor : String
deriving DecidableEq, Repr

/-- A chat message as the UI holds it. -/
structure ChatMessage where
  id : String
  role : Role
  text : String
  image : Option String
  audioData : Option String
  isThinking : Option Bool
  groundingUrls : Option (List (String × String))
deriving DecidableEq, Repr

/-- A stored chat document: the message's fields plus the write timestamp
(`{...msg, timestamp: Date.now()}`). -/
structure ChatDoc where
  id : String
  role : Role
  text : String
  image : Option String
  audioData : Option String
  isThinking : Option Bool
  groundingUrls : Option (List (String × String))
  timestamp : Nat
deriving DecidableEq, Repr

/-- Generic keyed upsert, the behaviour of an IndexedDB `put` on a keyPath
and of a Firestore `set` on a document path: replace the row with the same
key if one exists, otherwise append. -/
def putBy (key : α → String) (st : List α) (v : α) : List α :=
  if st.any (fun x => key x == key v) then
    st.map (fun x => if key x == key v then v else x)
  else st ++ [v]

/-- Generic keyed lookup (`get` by key). -/
def getBy (key : α → String) (st : List α) (k : String) : Option α :=
  st.find? (fun x => key x == k)

/-- The whole synchronized store state: the circuit breaker, the local
IndexedDB object stores, and the remote Firestore collections of one user
plus the global shared audio collection. -/
structure SyncState where
  cloudDisabled : Bool
  localResults : List ResultRecord
  localVocab : List VocabRecord
  localPron : List PronRecord
  localStats : List DailyStat
  localGoals : Option PartialGoals
  localAudio : List AudioEntry
  remoteResults : List ResultRecord
  remoteVocab : List (String × VocabDoc)
  remotePron : List (String × PronRecord)
  remoteStats : List (String × StatDoc)
  remoteGoals : Option PartialGoals
  remoteAudio : List AudioDoc
  remoteChat : List (String × ChatDoc)
deriving DecidableEq, Repr

/-- Sort a result list newest-first, the semantics of both the remote
`orderBy('timestamp', 'desc')` and the local `by-date` index walked with a
`'prev'` cursor. -/
def sortResultsDesc (l : List ResultRecord) : List ResultRecord :=
  l.insertionSort (fun a b => b.timestamp ≤ a.timestamp)

/-- Sort chat documents timestamp-ascending (`orderBy('timestamp', 'asc')`). -/
def sortChatAsc (l : List ChatDoc) : List ChatDoc :=
  l.insertionSort (fun a b => a.timestamp ≤ b.timestamp)

/-- Sort pronunciation attempts newest-first (`orderBy("timestamp", "desc")`
remotely, `sort((a,b) => b.timestamp - a.timestamp)` locally). -/
def sortPronDesc (l : List PronRecord) : List PronRecord :=
  l.insertionSort (fun a b => b.timestamp ≤ a.timestamp)

/-- A local vocabulary row viewed as a remote document (every stored field
present). -/
def VocabRecord.toDoc (v : VocabRecord) : VocabDoc :=
  { character := some v.character, pinyin := some v.pinyin, translation := some v.translation,
    exampleSentence := some v.exampleSentence, examplePinyin := v.examplePinyin,
    exampleTranslation := v.exampleTranslation |> some, level := v.level, rating := v.rating,
    bookmarked := v.bookmarked, customImage := v.customImage, lastReviewed := v.lastReviewed }

/-- The unchecked `d.data() as VocabCard` cast of `getBookmarkedWords`:
absent string fields surface as the empty string. -/
def VocabDoc.toCard (d : VocabDoc) : VocabCard :=
  { character := d.character.getD "", pinyin := d.pinyin.getD "",
    translation := d.translation.getD "", exampleSentence := d.exampleSentence.getD "",
    examplePinyin := d.examplePinyin, exampleTranslation := d.exampleTranslation.getD "",
    rating := d.rating, bookmarked := d.bookmarked, customImage := d.customImage }

/-- The spread `{...defaultGoals, ...data}` of `getUserGoals`: saved fields
overlay the hardcoded defaults. -/
def mergeGoals (p : PartialGoals) : UserGoals :=
  { dailyWords := p.dailyWords.getD defaultGoals.dailyWords,
    dailyMinutes := p.dailyMinutes.getD defaultGoals.dailyMinutes,
    dailySpeakingMinutes := p.dailySpeakingMinutes.getD defaultGoals.dailySpeakingMinutes,
    dailyPronunciation := p.dailyPronunciation.getD defaultGoals.dailyPronunciation }

/-!
## Coordinator operations

Each operation takes its UI arguments, the clock/date values the source
reads from `Date`, the authenticated user (`none` = guest), one outcome per
remote call the code can issue (`none` = the call succeeds, `some e` = it
rejects with error class `e`; a call that is never attempted ignores its
outcome), and the store state.  It returns the new state, the list of
remote calls actually attempted, and its result.
-/

/-- `saveResult` (gemini.ts:801-834). -/
def saveResult (ty : ResType) (score total : Nat) (level : HSKLevel)
    (dateStr : String) (now : Nat) (user : Option String) (out : Option CloudErr)
    (s : SyncState) : SyncState × List RemoteCall :=
  let data : ResultRecord :=
    { type := ty, score := score, total := total, level := level, date := dateStr,
      timestamp := now }
  let step1 : SyncState × List RemoteCall × Bool :=
    if user.isSome && !s.cloudDisabled then
      match out with
      | none => ({ s with remoteResults := s.remoteResults ++ [data] },
                 [⟨"saveResult", some withTimeoutDefault⟩], true)
      | some e => ({ s with cloudDisabled := handleCloudError e s.cloudDisabled },
                 [⟨"saveResult", some withTimeoutDefault⟩], false)
    else (s, [], false)
  if step1.2.2 then (step1.1, step1.2.1)
  else ({ step1.1 with localResults := step1.1.localResults ++ [data] }, step1.2.1)

/-- `getRecentResults` (gemini.ts:836-872): remote `orderBy('timestamp',
'desc').limit(20)` when reachable, otherwise the local `by-date` index
walked backwards, 20 rows. -/
def getRecentResults (user : Option String) (out : Option CloudErr) (s : SyncState) :
    SyncState × List RemoteCall × List ResultRecord :=
  if user.isSome && !s.cloudDisabled then
    match out with
    | none => (s, [⟨"getRecentResults", some withTimeoutDefault⟩],
               (sortResultsDesc s.remoteResults).take 20)
    | some e => ({ s with cloudDisabled := handleCloudError e s.cloudDisabled },
               [⟨"getRecentResults", some withTimeoutDefault⟩],
               (sortResultsDesc s.localResults).take 20)
  else (s, [], (sortResultsDesc s.localResults).take 20)

/-- `saveVocabCustomImage` (gemini.ts:876-911): remote merge of
`{customImage}` when reachable; local write always, merging
`{...card, ...(existing || {}), customImage}`. -/
def saveVocabCustomImage (card : VocabCard) (imageBase64 : String)
    (user : Option String) (out : Option CloudErr) (s : SyncState) :
    SyncState × List RemoteCall :=
  let step1 : SyncState × List RemoteCall :=
    if user.isSome && !s.cloudDisabled then
      match out with
      | none =>
          let old := ((getBy Prod.fst s.remoteVocab card.character).map Prod.snd).getD emptyVocabDoc
          let rv := putBy Prod.fst s.remoteVocab
            (card.character, { old with customImage := some imageBase64 })
          ({ s with remoteVocab := rv },
           [⟨"saveVocabCustomImage", some withTimeoutDefault⟩])
      | some e => ({ s with cloudDisabled := handleCloudError e s.cloudDisabled },
           [⟨"saveVocabCustomImage", some withTimeoutDefault⟩])
    else (s, [])
  let s1 := step1.1
  let merged : VocabRecord :=
    match getBy VocabRecord.character s1.localVocab card.character with
    | some e => { e with customImage := some imageBase64 }
    | none =>
        { character := card.character, pinyin := card.pinyin, translation := card.translation,
          exampleSentence := card.exampleSentence, examplePinyin := card.examplePinyin,
          exampleTranslation := card.exampleTranslation, level := none, rating := card.rating,
          bookmarked := card.bookmarked, customImage := some imageBase64, lastReviewed := none }
  ({ s1 with localVocab := putBy VocabRecord.character s1.localVocab merged }, step1.2)

/-- `saveVocabProgress` (gemini.ts:913-967): optimistic local read for the
image/bookmark the card may be missing, then a full-record remote merge
when reachable, and a local write only when the remote write did not
succeed. -/
def saveVocabProgress (card : VocabCard) (level : HSKLevel) (rating : Rating) (now : Nat)
    (user : Option String) (out : Option CloudErr) (s : SyncState) :
    SyncState × List RemoteCall :=
  let lookup : Option VocabRecord :=
    if jsFalsyStr card.customImage || card.bookmarked.isNone then
      getBy VocabRecord.character s.localVocab card.character
    else none
  let existingCustomImage : Option String :=
    match lookup with
    | some e => if jsFalsyStr card.customImage then e.customImage else card.customImage
    | none => card.customImage
  let existingBookmarked : Option Bool :=
    match lookup with
    | some e => if card.bookmarked.isNone then e.bookmarked else card.bookmarked
    | none => card.bookmarked
  let vocabData : VocabRecord :=
    { character := card.character, pinyin := card.pinyin, translation := card.translation,
      exampleSentence := card.exampleSentence,
      examplePinyin := some (jsOrStr card.examplePinyin ""),
      exampleTranslation := card.exampleTranslation, level := some level,
      rating := some rating, bookmarked := some (jsTruthy existingBookmarked),
      customImage := existingCustomImage, lastReviewed := some now }
  let step1 : SyncState × List RemoteCall × Bool :=
    if user.isSome && !s.cloudDisabled then
      match out with
      | none =>
          let rv := putBy Prod.fst s.remoteVocab (card.character, vocabData.toDoc)
          ({ s with remoteVocab := rv },
           [⟨"saveVocabProgress", some withTimeoutDefault⟩], true)
      | some e => ({ s with cloudDisabled := handleCloudError e s.cloudDisabled },
                 [⟨"saveVocabProgress", some withTimeoutDefault⟩], false)
    else (s, [], false)
  if step1.2.2 then (step1.1, step1.2.1)
  else ({ step1.1 with localVocab := putBy VocabRecord.character step1.1.localVocab vocabData },
        step1.2.1)

/-- `toggleVocabBookmark` (gemini.ts:969-1027): the cloud path inverts the
caller's `card.bookmarked`; the local fallback recomputes the inversion
from the stored record when one exists.  Returns the new bookmark
boolean. -/
def toggleVocabBookmark (card : VocabCard) (level : HSKLevel) (now : Nat)
    (user : Option String) (out : Option CloudErr) (s : SyncState) :
    SyncState × List RemoteCall × Bool :=
  let newB0 : Bool := !(jsTruthy card.bookmarked)
  let step1 : SyncState × List RemoteCall × Bool :=
    if user.isSome && !s.cloudDisabled then
      match out with
      | none =>
          let old := ((getBy Prod.fst s.remoteVocab card.character).map Prod.snd).getD emptyVocabDoc
          let doc : VocabDoc :=
            { character := some card.character, pinyin := some card.pinyin,
              translation := some card.translation,
              exampleSentence := some card.exampleSentence,
              examplePinyin := some (jsOrStr card.examplePinyin ""),
              exampleTranslation := some card.exampleTranslation, level := some level,
              rating := old.rating, bookmarked := some newB0,
              customImage := old.customImage, lastReviewed := some now }
          ({ s with remoteVocab := putBy Prod.fst s.remoteVocab (card.character, doc) },
           [⟨"toggleVocabBookmark", some withTimeoutDefault⟩], true)
      | some e => ({ s with cloudDisabled := handleCloudError e s.cloudDisabled },
           [⟨"toggleVocabBookmark", some withTimeoutDefault⟩], false)
    else (s, [], false)
  if step1.2.2 then (step1.1, step1.2.1, newB0)
  else
    let s1 := step1.1
    let existing := getBy VocabRecord.character s1.localVocab card.character
    let current : Bool :=
      match existing with
      | some ex => jsTruthy ex.bookmarked
      | none => jsTruthy card.bookmarked
    let newB : Bool := !current
    let rec0 : VocabRecord :=
      { character := card.character, pinyin := card.pinyin, translation := card.translation,
        exampleSentence := card.exampleSentence,
        examplePinyin := some (jsOrStr card.examplePinyin
          (jsOrStr (existing.bind VocabRecord.examplePinyin) "")),
        exampleTranslation := card.exampleTranslation, level := some level,
        rating := existing.bind VocabRecord.rating, bookmarked := some newB,
        customImage := existing.bind VocabRecord.customImage, lastReviewed := some now }
    ({ s1 with localVocab := putBy VocabRecord.character s1.localVocab rec0 }, step1.2.1, newB)

/-- `getBookmarkedWords` (gemini.ts:1029-1065). -/
def getBookmarkedWords (level : HSKLevel) (user : Option String) (out : Option CloudErr)
    (s : SyncState) : SyncState × List RemoteCall × List VocabCard :=
  if user.isSome && !s.cloudDisabled then
    match out with
    | none =>
        (s, [⟨"getBookmarkedWords", some withTimeoutDefault⟩],
         ((s.remoteVocab.map Prod.snd).filter
            (fun d => d.bookmarked == some true && d.level == some level)).map VocabDoc.toCard)
    | some e =>
        ({ s with cloudDisabled := handleCloudError e s.cloudDisabled },
         [⟨"getBookmarkedWords", some withTimeoutDefault⟩],
         (s.localVocab.filter (fun v => v.bookmarked == some true && v.level == some level)).map
           (fun v => { character := v.character, pinyin := v.pinyin, translation := v.translation,
                       exampleSentence := v.exampleSentence, examplePinyin := v.examplePinyin,
                       exampleTranslation := v.exampleTranslation, rating := none,
                       bookmarked := some true, customImage := v.customImage }))
  else
    (s, [],
     (s.localVocab.filter (fun v => v.bookmarked == some true && v.level == some level)).map
       (fun v => { character := v.character, pinyin := v.pinyin, translation := v.translation,
                   exampleSentence := v.exampleSentence, examplePinyin := v.examplePinyin,
                   exampleTranslation := v.exampleTranslation, rating := none,
                   bookmarked := some true, customImage := v.customImage }))

/-- `getVocabStats` (gemini.ts:1067-1120): fetches all vocabulary (remote
when reachable, local otherwise) and filters by level.  The 7-day weekday
histogram computed from the fetched rows is locale/`Date` display logic and
is not modelled; the operation's store, breaker and remote-call behaviour
is, and its result here is the fetched, level-filtered row set. -/
def getVocabStats (level : Option HSKLevel) (user : Option String) (out : Option CloudErr)
    (s : SyncState) : SyncState × List RemoteCall × List VocabDoc :=
  let step1 : SyncState × List RemoteCall × Option (List VocabDoc) :=
    if user.isSome && !s.cloudDisabled then
      match out with
      | none => (s, [⟨"getVocabStats", some withTimeoutDefault⟩], some (s.remoteVocab.map Prod.snd))
      | some e => ({ s with cloudDisabled := handleCloudError e s.cloudDisabled },
                   [⟨"getVocabStats", some withTimeoutDefault⟩], none)
    else (s, [], none)
  let allVocab : List VocabDoc :=
    match step1.2.2 with
    | some docs => docs
    | none => step1.1.localVocab.map VocabRecord.toDoc
  let filtered :=
    match level with
    | some lv => allVocab.filter (fun v => v.level == some lv)
    | none => allVocab
  (step1.1, step1.2.1, filtered)

/-- `getUserStats` (gemini.ts:1122-1173): two independently guarded remote
fetches (vocabulary then results), each falling back to the local store
when the fetched list is empty.  The float quiz average is not modelled;
the result is `(totalWords, examsTaken, quizzes)`. -/
def getUserStats (user : Option String) (outV outR : Option CloudErr) (s : SyncState) :
    SyncState × List RemoteCall × (Nat × Nat × List ResultRecord) :=
  let step1 : SyncState × List RemoteCall × List VocabDoc :=
    if user.isSome && !s.cloudDisabled then
      match outV with
      | none => (s, [⟨"getUserStats-vocab", some withTimeoutDefault⟩], s.remoteVocab.map Prod.snd)
      | some e => ({ s with cloudDisabled := handleCloudError e s.cloudDisabled },
                   [⟨"getUserStats-vocab", some withTimeoutDefault⟩], [])
    else (s, [], [])
  let s1 := step1.1
  let allVocab : List VocabDoc :=
    if step1.2.2.length == 0 then s1.localVocab.map VocabRecord.toDoc else step1.2.2
  let step2 : SyncState × List RemoteCall × List ResultRecord :=
    if user.isSome && !s1.cloudDisabled then
      match outR with
      | none => (s1, [⟨"getUserStats-results", some withTimeoutDefault⟩], s1.remoteResults)
      | some e => ({ s1 with cloudDisabled := handleCloudError e s1.cloudDisabled },
                   [⟨"getUserStats-results", some withTimeoutDefault⟩], [])
    else (s1, [], [])
  let s2 := step2.1
  let allResults : List ResultRecord :=
    if step2.2.2.length == 0 then s2.localResults else step2.2.2
  let quizzes := allResults.filter (fun r => r.type == ResType.quiz)
  let exams := allResults.filter (fun r => r.type == ResType.exam)
  (s2, step1.2.1 ++ step2.2.1, (allVocab.length, exams.length, quizzes))

/-- `getCachedAudio` (gemini.ts:1181-1221): local durable cache first; then,
unless the breaker is open (no auth check here), a remote lookup under a
1500 ms timeout whose hit is cached back locally. -/
def getCachedAudio (text : String) (now : Nat) (out : Option CloudErr) (s : SyncState) :
    SyncState × List RemoteCall × Option String :=
  match getBy AudioEntry.text s.localAudio text with
  | some cached => (s, [], some cached.audioData)
  | none =>
    if s.cloudDisabled then (s, [], none)
    else
      match out with
      | none =>
        match (s.remoteAudio.filter (fun d => d.text == text)).take 1 with
        | [] => (s, [⟨"getCachedAudio", some 1500⟩], none)
        | d :: _ =>
            let la := putBy AudioEntry.text s.localAudio ⟨text, d.audioData, now⟩
            ({ s with localAudio := la },
             [⟨"getCachedAudio", some 1500⟩], some d.audioData)
      | some e =>
        ({ s with cloudDisabled := handleCloudError e s.cloudDisabled },
         [⟨"getCachedAudio", some 1500⟩], none)

/-- `saveCachedAudio` (gemini.ts:1223-1257): local write always; when an
authenticated user has the breaker closed, a bare existence query on the
shared collection followed by a bare `add` only when the query came back
empty. -/
def saveCachedAudio (text audioBase64 : String) (now : Nat) (user : Option String)
    (outQ outAdd : Option CloudErr) (s : SyncState) : SyncState × List RemoteCall :=
  let s0 := { s with localAudio := putBy AudioEntry.text s.localAudio ⟨text, audioBase64, now⟩ }
  match user with
  | none => (s0, [])
  | some uid =>
    if s0.cloudDisabled then (s0, [])
    else
      match outQ with
      | some e => ({ s0 with cloudDisabled := handleCloudError e s0.cloudDisabled },
                   [⟨"saveCachedAudio", none⟩])
      | none =>
        if ((s0.remoteAudio.filter (fun d => d.text == text)).take 1).isEmpty then
          match outAdd with
          | none => ({ s0 with remoteAudio := s0.remoteAudio ++ [⟨text, audioBase64, now, uid⟩] },
                     [⟨"saveCachedAudio", none⟩, ⟨"saveCachedAudio", none⟩])
          | some e => ({ s0 with cloudDisabled := handleCloudError e s0.cloudDisabled },
                     [⟨"saveCachedAudio", none⟩, ⟨"saveCachedAudio", none⟩])
        else (s0, [⟨"saveCachedAudio", none⟩])

/-- `saveChatMessage` (gemini.ts:1262-1275): remote-only, keyed by message
id, stamped with the write time; no local fallback of any kind. -/
def saveChatMessage (msg : ChatMessage) (now : Nat) (user : Option String)
    (out : Option CloudErr) (s : SyncState) : SyncState × List RemoteCall :=
  if user.isSome && !s.cloudDisabled then
    match out with
    | none =>
        let doc : ChatDoc :=
          { id := msg.id, role := msg.role, text := msg.text, image := msg.image,
            audioData := msg.audioData, isThinking := msg.isThinking,
            groundingUrls := msg.groundingUrls, timestamp := now }
        ({ s with remoteChat := putBy Prod.fst s.remoteChat (msg.id, doc) },
         [⟨"saveChatMessage", some withTimeoutDefault⟩])
    | some e => ({ s with cloudDisabled := handleCloudError e s.cloudDisabled },
         [⟨"saveChatMessage", some withTimeoutDefault⟩])
  else (s, [])

/-- `updateMessageAudio` (gemini.ts:1277-1287): a bare merge of `{audio}`
into the chat document.  A merge into an absent document would create a
document with no `timestamp` field, which the timestamp-ordered history
query never returns, so only updates of present documents are represented. -/
def updateMessageAudio (msgId audioBase64 : String) (user : Option String)
    (out : Option CloudErr) (s : SyncState) : SyncState × List RemoteCall :=
  if user.isSome && !s.cloudDisabled then
    match out with
    | none =>
        ({ s with remoteChat := s.remoteChat.map (fun p =>
             if p.1 == msgId then (p.1, { p.2 with audioData := some audioBase64 }) else p) },
         [⟨"updateMessageAudio", none⟩])
    | some e => ({ s with cloudDisabled := handleCloudError e s.cloudDisabled },
         [⟨"updateMessageAudio", none⟩])
  else (s, [])

/-- `getChatHistory` (gemini.ts:1289-1312): empty for guests or an open
breaker; otherwise `orderBy('timestamp','asc').limit(50)` mapped back to
`ChatMessage`s, and empty on any remote failure. -/
def getChatHistory (user : Option String) (out : Option CloudErr) (s : SyncState) :
    SyncState × List RemoteCall × List ChatMessage :=
  if user.isNone || s.cloudDisabled then (s, [], [])
  else
    match out with
    | none =>
        (s, [⟨"getChatHistory", some withTimeoutDefault⟩],
         ((sortChatAsc (s.remoteChat.map Prod.snd)).take 50).map (fun d =>
           { id := d.id, role := d.role, text := d.text, image := d.image,
             audioData := d.audioData, isThinking := none, groundingUrls := d.groundingUrls }))
    | some e => ({ s with cloudDisabled := handleCloudError e s.cloudDisabled },
         [⟨"getChatHistory", some withTimeoutDefault⟩], [])

/-- `clearChatHistory` (gemini.ts:1314-1326): a bare fetch of the whole
chat collection followed by a bare batched delete. -/
def clearChatHistory (user : Option String) (outGet outCommit : Option CloudErr)
    (s : SyncState) : SyncState × List RemoteCall :=
  if user.isNone || s.cloudDisabled then (s, [])
  else
    match outGet with
    | some e => ({ s with cloudDisabled := handleCloudError e s.cloudDisabled },
                 [⟨"clearChatHistory", none⟩])
    | none =>
      match outCommit with
      | none => ({ s with remoteChat := [] },
                 [⟨"clearChatHistory", none⟩, ⟨"clearChatHistory", none⟩])
      | some e => ({ s with cloudDisabled := handleCloudError e s.cloudDisabled },
                 [⟨"clearChatHistory", none⟩, ⟨"clearChatHistory", none⟩])

/-- `savePronunciationAttempt` (gemini.ts:1330-1350): a bare remote `set`
keyed by `word + "_" + timestamp` when reachable, and a local write
always. -/
def savePronunciationAttempt (word heard pinyin : String) (score : Nat) (feedback : String)
    (timestamp : Nat) (user : Option String) (out : Option CloudErr) (s : SyncState) :
    SyncState × List RemoteCall :=
  let id := word ++ "_" ++ toString timestamp
  let data : PronRecord := ⟨id, word, heard, pinyin, score, feedback, timestamp⟩
  let step1 : SyncState × List RemoteCall :=
    if user.isSome && !s.cloudDisabled then
      match out with
      | none => ({ s with remotePron := putBy Prod.fst s.remotePron (id, data) },
                 [⟨"savePronunciationAttempt", none⟩])
      | some e => ({ s with cloudDisabled := handleCloudError e s.cloudDisabled },
                 [⟨"savePronunciationAttempt", none⟩])
    else (s, [])
  ({ step1.1 with localPron := putBy PronRecord.id step1.1.localPron data }, step1.2)

/-- `getPronunciationHistory` (gemini.ts:1352-1379): a bare remote query
when reachable; the local `by-word` index sorted newest-first, 10 rows,
whenever the remote result list is empty. -/
def getPronunciationHistory (word : String) (user : Option String) (out : Option CloudErr)
    (s : SyncState) : SyncState × List RemoteCall × List PronRecord :=
  let step1 : SyncState × List RemoteCall × List PronRecord :=
    if user.isSome && !s.cloudDisabled then
      match out with
      | none => (s, [⟨"getPronunciationHistory", none⟩],
                 (sortPronDesc ((s.remotePron.map Prod.snd).filter
                    (fun p => p.word == word))).take 10)
      | some e => ({ s with cloudDisabled := handleCloudError e s.cloudDisabled },
                 [⟨"getPronunciationHistory", none⟩], [])
    else (s, [], [])
  if step1.2.2.isEmpty then
    (step1.1, step1.2.1,
     (sortPronDesc (step1.1.localPron.filter (fun p => p.word == word))).take 10)
  else step1

/-- `saveUserGoals` (gemini.ts:1383-1397): a bare remote `set` (no merge)
when reachable, and a local write always. -/
def saveUserGoals (goals : UserGoals) (user : Option String) (out : Option CloudErr)
    (s : SyncState) : SyncState × List RemoteCall :=
  let step1 : SyncState × List RemoteCall :=
    if user.isSome && !s.cloudDisabled then
      match out with
      | none => ({ s with remoteGoals := some (PartialGoals.ofGoals goals) },
                 [⟨"saveUserGoals", none⟩])
      | some e => ({ s with cloudDisabled := handleCloudError e s.cloudDisabled },
                 [⟨"saveUserGoals", none⟩])
    else (s, [])
  ({ step1.1 with localGoals := some (PartialGoals.ofGoals goals) }, step1.2)

/-- `getUserGoals` (gemini.ts:1399-1423): remote goals overlaid on the
hardcoded defaults when present; otherwise the local goals overlaid on the
defaults; otherwise the defaults. -/
def getUserGoals (user : Option String) (out : Option CloudErr) (s : SyncState) :
    SyncState × List RemoteCall × UserGoals :=
  let fromLocal : UserGoals :=
    match s.localGoals with
    | some p => mergeGoals p
    | none => defaultGoals
  if user.isSome && !s.cloudDisabled then
    match out with
    | none =>
      match s.remoteGoals with
      | some p => (s, [⟨"getUserGoals", none⟩], mergeGoals p)
      | none => (s, [⟨"getUserGoals", none⟩], fromLocal)
    | some e => ({ s with cloudDisabled := handleCloudError e s.cloudDisabled },
                 [⟨"getUserGoals", none⟩], fromLocal)
  else (s, [], fromLocal)

/-- `updateStudyTime` (gemini.ts:1425-1449): a bare remote read-merge-write
of the day's stat document when reachable, and a local read-merge-write
always. -/
def updateStudyTime (minutes : Nat) (dateKey : String) (user : Option String)
    (outGet outSet : Option CloudErr) (s : SyncState) : SyncState × List RemoteCall :=
  let step1 : SyncState × List RemoteCall :=
    if user.isSome && !s.cloudDisabled then
      match outGet with
      | some e => ({ s with cloudDisabled := handleCloudError e s.cloudDisabled },
                   [⟨"updateStudyTime", none⟩])
      | none =>
        let current := (getBy Prod.fst s.remoteStats dateKey).map Prod.snd
        let doc : StatDoc :=
          { date := some dateKey,
            minutes := some ((current.bind StatDoc.minutes).getD 0 + minutes),
            speakingMinutes := current.bind StatDoc.speakingMinutes }
        match outSet with
        | none => ({ s with remoteStats := putBy Prod.fst s.remoteStats (dateKey, doc) },
                   [⟨"updateStudyTime", none⟩, ⟨"updateStudyTime", none⟩])
        | some e => ({ s with cloudDisabled := handleCloudError e s.cloudDisabled },
                   [⟨"updateStudyTime", none⟩, ⟨"updateStudyTime", none⟩])
    else (s, [])
  let s1 := step1.1
  let existing := getBy DailyStat.date s1.localStats dateKey
  let currentMinutes := (existing.map DailyStat.minutes).getD 0
  let currentSpeaking := (existing.bind DailyStat.speakingMinutes).getD 0
  let ls := putBy DailyStat.date s1.localStats
    ⟨dateKey, currentMinutes + minutes, some currentSpeaking⟩
  ({ s1 with localStats := ls }, step1.2)

/-- `updateSpeakingTime` (gemini.ts:1451-1475). -/
def updateSpeakingTime (minutes : Nat) (dateKey : String) (user : Option String)
    (outGet outSet : Option CloudErr) (s : SyncState) : SyncState × List RemoteCall :=
  let step1 : SyncState × List RemoteCall :=
    if user.isSome && !s.cloudDisabled then
      match outGet with
      | some e => ({ s with cloudDisabled := handleCloudError e s.cloudDisabled },
                   [⟨"updateSpeakingTime", none⟩])
      | none =>
        let current := (getBy Prod.fst s.remoteStats dateKey).map Prod.snd
        let doc : StatDoc :=
          { date := some dateKey,
            minutes := current.bind StatDoc.minutes,
            speakingMinutes := some ((current.bind StatDoc.speakingMinutes).getD 0 + minutes) }
        match outSet with
        | none => ({ s with remoteStats := putBy Prod.fst s.remoteStats (dateKey, doc) },
                   [⟨"updateSpeakingTime", none⟩, ⟨"updateSpeakingTime", none⟩])
        | some e => ({ s with cloudDisabled := handleCloudError e s.cloudDisabled },
                   [⟨"updateSpeakingTime", none⟩, ⟨"updateSpeakingTime", none⟩])
    else (s, [])
  let s1 := step1.1
  let existing := getBy DailyStat.date s1.localStats dateKey
  let currentMinutes := (existing.map DailyStat.minutes).getD 0
  let currentSpeaking := (existing.bind DailyStat.speakingMinutes).getD 0
  let ls := putBy DailyStat.date s1.localStats
    ⟨dateKey, currentMinutes, some (currentSpeaking + minutes)⟩
  ({ s1 with localStats := ls }, step1.2)

/-- `getDailyProgress` (gemini.ts:1477-1545): today's stat document (remote
when reachable, else local), then two bare remote count queries, then a
local fallback for whichever count is still zero.  Result:
`(minutesSpent, wordsReviewed, speakingMinutes, pronunciationCount)`. -/
def getDailyProgress (dateKey : String) (startOfDay : Nat) (user : Option String)
    (outStats outVocab outPron : Option CloudErr) (s : SyncState) :
    SyncState × List RemoteCall × (Nat × Nat × Nat × Nat) :=
  let step1 : SyncState × List RemoteCall × (Nat × Nat) :=
    if user.isSome && !s.cloudDisabled then
      match outStats with
      | none =>
        match (getBy Prod.fst s.remoteStats dateKey).map Prod.snd with
        | some d => (s, [⟨"getDailyProgress-stats", none⟩],
                     ((d.minutes).getD 0, (d.speakingMinutes).getD 0))
        | none => (s, [⟨"getDailyProgress-stats", none⟩], (0, 0))
      | some e => ({ s with cloudDisabled := handleCloudError e s.cloudDisabled },
                   [⟨"getDailyProgress-stats", none⟩], (0, 0))
    else
      match getBy DailyStat.date s.localStats dateKey with
      | some st => (s, [], (st.minutes, (st.speakingMinutes).getD 0))
      | none => (s, [], (0, 0))
  let s1 := step1.1
  let step2 : SyncState × List RemoteCall × (Nat × Nat) :=
    if user.isSome && !s1.cloudDisabled then
      let wordsAndState : SyncState × List RemoteCall × Nat :=
        match outVocab with
        | none => (s1, [⟨"getDailyProgress-vocab", none⟩],
                   ((s1.remoteVocab.map Prod.snd).filter (fun d =>
                      match d.lastReviewed with
                      | some t => startOfDay ≤ t
                      | none => false)).length)
        | some e => ({ s1 with cloudDisabled := handleCloudError e s1.cloudDisabled },
                     [⟨"getDailyProgress-vocab", none⟩], 0)
      let s2 := wordsAndState.1
      match outPron with
      | none => (s2, wordsAndState.2.1 ++ [⟨"getDailyProgress-pron", none⟩],
                 (wordsAndState.2.2,
                  ((s2.remotePron.map Prod.snd).filter
                     (fun p => startOfDay ≤ p.timestamp)).length))
      | some e => ({ s2 with cloudDisabled := handleCloudError e s2.cloudDisabled },
                 wordsAndState.2.1 ++ [⟨"getDailyProgress-pron", none⟩],
                 (wordsAndState.2.2, 0))
    else (s1, [], (0, 0))
  let s3 := step2.1
  let words : Nat :=
    if step2.2.2.1 == 0 then
      (s3.localVocab.filter (fun v =>
         match v.lastReviewed with
         | some t => startOfDay ≤ t
         | none => false)).length
    else step2.2.2.1
  let pronCount : Nat :=
    if step2.2.2.2 == 0 then
      (s3.localPron.filter (fun p => startOfDay ≤ p.timestamp)).length
    else step2.2.2.2
  (s3, step1.2.1 ++ step2.2.1, (step1.2.2.1, words, step1.2.2.2, pronCount))

/-- An empty store state with the breaker closed. -/
def emptyState : SyncState :=
  { cloudDisabled := false, localResults := [], localVocab := [], localPron := [],
    localStats := [], localGoals := none, localAudio := [], remoteResults := [],
    remoteVocab := [], remotePron := [], remoteStats := [], remoteGoals := none,
    remoteAudio := [], remoteChat := [] }

/-- One coordinator operation together with its UI inputs, the auth state
at the moment it runs, and the outcome the remote store would give each of
its remote calls. -/
inductive Op where
  | saveResult (ty : ResType) (score total : Nat) (level : HSKLevel) (dateStr : String)
      (now : Nat) (user : Option String) (out : Option CloudErr)
  | getRecentResults (user : Option String) (out : Option CloudErr)
  | saveVocabCustomImage (card : VocabCard) (imageBase64 : String) (user : Option String)
      (out : Option CloudErr)
  | saveVocabProgress (card : VocabCard) (level : HSKLevel) (rating : Rating) (now : Nat)
      (user : Option String) (out : Option CloudErr)
  | toggleVocabBookmark (card : VocabCard) (level : HSKLevel) (now : Nat)
      (user : Option String) (out : Option CloudErr)
  | getBookmarkedWords (level : HSKLevel) (user : Option String) (out : Option CloudErr)
  | getVocabStats (level : Option HSKLevel) (user : Option String) (out : Option CloudErr)
  | getUserStats (user : Option String) (outV outR : Option CloudErr)
  | getCachedAudio (text : String) (now : Nat) (out : Option CloudErr)
  | saveCachedAudio (text audioBase64 : String) (now : Nat) (user : Option String)
      (outQ outAdd : Option CloudErr)
  | saveChatMessage (msg : ChatMessage) (now : Nat) (user : Option String)
      (out : Option CloudErr)
  | updateMessageAudio (msgId audioBase64 : String) (user : Option String)
      (out : Option CloudErr)
  | getChatHistory (user : Option String) (out : Option CloudErr)
  | clearChatHistory (user : Option String) (outGet outCommit : Option CloudErr)
  | savePronunciationAttempt (word heard pinyin : String) (score : Nat) (feedback : String)
      (timestamp : Nat) (user : Option String) (out : Option CloudErr)
  | getPronunciationHistory (word : String) (user : Option String) (out : Option CloudErr)
  | saveUserGoals (goals : UserGoals) (user : Option String) (out : Option CloudErr)
  | getUserGoals (user : Option String) (out : Option CloudErr)
  | updateStudyTime (minutes : Nat) (dateKey : String) (user : Option String)
      (outGet outSet : Option CloudErr)
  | updateSpeakingTime (minutes : Nat) (dateKey : String) (user : Option String)
      (outGet outSet : Option CloudErr)
  | getDailyProgress (dateKey : String) (startOfDay : Nat) (user : Option String)
      (outStats outVocab outPron : Option CloudErr)
deriving DecidableEq, Repr

/-- Run one coordinator operation: the new store state and the remote calls
it attempted. -/
def runOp (o : Op) (s : SyncState) : SyncState × List RemoteCall :=
  match o with
  | .saveResult ty sc tot lv d n u out => saveResult ty sc tot lv d n u out s
  | .getRecentResults u out => ((getRecentResults u out s).1, (getRecentResults u out s).2.1)
  | .saveVocabCustomImage c img u out => saveVocabCustomImage c img u out s
  | .saveVocabProgress c lv r n u out => saveVocabProgress c lv r n u out s
  | .toggleVocabBookmark c lv n u out =>
      ((toggleVocabBookmark c lv n u out s).1, (toggleVocabBookmark c lv n u out s).2.1)
  | .getBookmarkedWords lv u out =>
      ((getBookmarkedWords lv u out s).1, (getBookmarkedWords lv u out s).2.1)
  | .getVocabStats lv u out => ((getVocabStats lv u out s).1, (getVocabStats lv u out s).2.1)
  | .getUserStats u o1 o2 => ((getUserStats u o1 o2 s).1, (getUserStats u o1 o2 s).2.1)
  | .getCachedAudio t n out => ((getCachedAudio t n out s).1, (getCachedAudio t n out s).2.1)
  | .saveCachedAudio t a n u o1 o2 => saveCachedAudio t a n u o1 o2 s
  | .saveChatMessage m n u out => saveChatMessage m n u out s
  | .updateMessageAudio i a u out => updateMessageAudio i a u out s
  | .getChatHistory u out => ((getChatHistory u out s).1, (getChatHistory u out s).2.1)
  | .clearChatHistory u o1 o2 => clearChatHistory u o1 o2 s
  | .savePronunciationAttempt w h p sc f t u out => savePronunciationAttempt w h p sc f t u out s
  | .getPronunciationHistory w u out =>
      ((getPronunciationHistory w u out s).1, (getPronunciationHistory w u out s).2.1)
  | .saveUserGoals g u out => saveUserGoals g u out s
  | .getUserGoals u out => ((getUserGoals u out s).1, (getUserGoals u out s).2.1)
  | .updateStudyTime m d u o1 o2 => updateStudyTime m d u o1 o2 s
  | .updateSpeakingTime m d u o1 o2 => updateSpeakingTime m d u o1 o2 s
  | .getDailyProgress d st u o1 o2 o3 =>
      ((getDailyProgress d st u o1 o2 o3 s).1, (getDailyProgress d st u o1 o2 o3 s).2.1)

/-- Run a sequence of coordinator operations, collecting the remote calls
each one attempted. -/
def runOps : List Op → SyncState → SyncState × List (List RemoteCall)
  | [], s => (s, [])
  | o :: rest, s =>
    let r := runOp o s
    let rr := runOps rest r.1
    (rr.1, r.2 :: rr.2)

/-- Which remote calls the source wraps in `withTimeout`, by context label:
the results / vocabulary / user-stats / chat-save-read family uses the
2000 ms default, `getCachedAudio` passes 1500 ms, and every other call is
issued bare. -/
def wrapPolicy (label : String) : Option Nat :=
  if label ∈ ["saveResult", "getRecentResults", "saveVocabCustomImage", "saveVocabProgress",
      "toggleVocabBookmark", "getBookmarkedWords", "getVocabStats", "getUserStats-vocab",
      "getUserStats-results", "saveChatMessage", "getChatHistory"] then
    some withTimeoutDefault
  else if label == "getCachedAudio" then some 1500
  else none

/-- A partial update to one vocabulary key, as a UI surface issues it. -/
inductive VUpdate where
  | rate (card : VocabCard) (level : HSKLevel) (rating : Rating) (now : Nat)
  | toggle (card : VocabCard) (level : HSKLevel) (now : Nat)
  | image (card : VocabCard) (img : String)
deriving DecidableEq, Repr

/-- A store state whose only contents are the local vocabulary rows. -/
def vocabState (st : List VocabRecord) : SyncState := { emptyState with localVocab := st }

/-- The local vocabulary store after one guest-mode (local-path) update. -/
def applyV (u : VUpdate) (st : List VocabRecord) : List VocabRecord :=
  match u with
  | .rate card lv r now => (saveVocabProgress card lv r now none none (vocabState st)).1.localVocab
  | .toggle card lv now =>
      (toggleVocabBookmark card lv now none none (vocabState st)).1.localVocab
  | .image card img => (saveVocabCustomImage card img none none (vocabState st)).1.localVocab

/-- A sequence of updates applied in order. -/
def applySeq (l : List VUpdate) (st : List VocabRecord) : List VocabRecord :=
  l.foldl (fun acc u => applyV u acc) st

/-- Sequence discipline for the merge property: every update addresses the
given character, and a rating update's card carries no stale value for the
fields it does not touch (`bookmarked` undefined and `customImage` unset),
so the coordinator's optimistic read of the stored record fills them in. -/
def cardOK (ch : String) : VUpdate → Bool
  | .rate c _ _ _ => c.character == ch && c.bookmarked == none && jsFalsyStr c.customImage
  | .toggle c _ _ => c.character == ch
  | .image c _ => c.character == ch

/-- Is this update a rating update? -/
def isRate : VUpdate → Bool
  | .rate _ _ _ _ => true
  | _ => false

/-- Is this update a bookmark toggle? -/
def isToggle : VUpdate → Bool
  | .toggle _ _ _ => true
  | _ => false

/-- Is this update a custom-image attach? -/
def isImage : VUpdate → Bool
  | .image _ _ => true
  | _ => false

/-- A remote chat collection of 51 messages with timestamps 0..50 (document
ids equal to the timestamps). -/
def chat51 : List (String × ChatDoc) :=
  (List.range 51).map
    (fun i => (toString i, ⟨toString i, Role.user, "t", none, none, none, none, i⟩))

/-- Is this outcome anything other than a permission-denied failure? -/
def outcomeNoPerm : Option CloudErr → Bool
  | some CloudErr.permissionDenied => false
  | _ => true

/-- No outcome parameter of the operation is a permission-denied-class
failure: its remote calls, when they fail, fail transiently. -/
def opNoPerm : Op → Bool
  | .saveResult _ _ _ _ _ _ _ out => outcomeNoPerm out
  | .getRecentResults _ out => outcomeNoPerm out
  | .saveVocabCustomImage _ _ _ out => outcomeNoPerm out
  | .saveVocabProgress _ _ _ _ _ out => outcomeNoPerm out
  | .toggleVocabBookmark _ _ _ _ out => outcomeNoPerm out
  | .getBookmarkedWords _ _ out => outcomeNoPerm out
  | .getVocabStats _ _ out => outcomeNoPerm out
  | .getUserStats _ o1 o2 => outcomeNoPerm o1 && outcomeNoPerm o2
  | .getCachedAudio _ _ out => outcomeNoPerm out
  | .saveCachedAudio _ _ _ _ o1 o2 => outcomeNoPerm o1 && outcomeNoPerm o2
  | .saveChatMessage _ _ _ out => outcomeNoPerm out
  | .updateMessageAudio _ _ _ out => outcomeNoPerm out
  | .getChatHistory _ out => outcomeNoPerm out
  | .clearChatHistory _ o1 o2 => outcomeNoPerm o1 && outcomeNoPerm o2
  | .savePronunciationAttempt _ _ _ _ _ _ _ out => outcomeNoPerm out
  | .getPronunciationHistory _ _ out => outcomeNoPerm out
  | .saveUserGoals _ _ out => outcomeNoPerm out
  | .getUserGoals _ out => outcomeNoPerm out
  | .updateStudyTime _ _ _ o1 o2 => outcomeNoPerm o1 && outcomeNoPerm o2
  | .updateSpeakingTime _ _ _ o1 o2 => outcomeNoPerm o1 && outcomeNoPerm o2
  | .getDailyProgress _ _ _ o1 o2 o3 =>
      outcomeNoPerm o1 && outcomeNoPerm o2 && outcomeNoPerm o3

instance : IsTotal ResultRecord (fun a b => b.timestamp ≤ a.timestamp) :=
  ⟨fun a b => le_total b.timestamp a.timestamp⟩

instance : IsTrans ResultRecord (fun a b => b.timestamp ≤ a.timestamp) :=
  ⟨fun _ _ _ h1 h2 => le_trans h2 h1⟩

instance : IsTotal ChatDoc (fun a b => a.timestamp ≤ b.timestamp) :=
  ⟨fun a b => le_total a.timestamp b.timestamp⟩

instance : IsTrans ChatDoc (fun a b => a.timestamp ≤ b.timestamp) :=
  ⟨fun _ _ _ h1 h2 => le_trans h1 h2⟩

/-!
## Theorems
-/

theorem find?_map_put {α : Type} (key : α → String) (t : List α) (v : α)
    (h : t.any (fun x => key x == key v) = true) :
    (t.map (fun x => if key x == key v then v else x)).find?
      (fun x => key x == key v) = some v := by
  induction t with
  | nil => simp at h
  | cons a t ih =>
    rw [List.map_cons]
    by_cases ha : (key a == key v) = true
    · rw [if_pos ha, List.find?_cons_of_pos _ (by simp)]
    · have ha' : (key a == key v) = false := by simpa using ha
      rw [if_neg ha]
      simp only [List.find?_cons, ha']
      exact ih (by simpa [List.any_cons, ha'] using h)

/-- A keyed upsert makes the stored row under the written key the written
row. -/
theorem getBy_putBy_self {α : Type} (key : α → String) (st : List α) (v : α) :
    getBy key (putBy key st v) (key v) = some v := by
  unfold getBy putBy
  by_cases h : st.any (fun x => key x == key v) = true
  · rw [if_pos h]
    exact find?_map_put key st v h
  · rw [if_neg h, List.find?_append]
    have hn : st.find? (fun x => key x == key v) = none := by
      rw [List.find?_eq_none]
      intro x hx hpx
      exact h (List.any_eq_true.mpr ⟨x, hx, hpx⟩)
    rw [hn]
    simp

theorem sortResultsDesc_take_spec (l : List ResultRecord) (n : Nat) :
    ((sortResultsDesc l).take n).length ≤ n ∧
    List.Sorted (fun a b : ResultRecord => b.timestamp ≤ a.timestamp)
      ((sortResultsDesc l).take n) :=
  ⟨List.length_take_le _ _,
   (List.sorted_insertionSort _ l).sublist (List.take_sublist _ _)⟩

theorem getBy_key {α : Type} (key : α → String) (st : List α) (k : String) (v : α)
    (h : getBy key st k = some v) : key v = k := by
  have := List.find?_some h
  simpa using this

theorem applyV_preserves (ch : String) (u : VUpdate) (st : List VocabRecord)
    (e : VocabRecord) (hOK : cardOK ch u = true)
    (hget : getBy VocabRecord.character st ch = some e) :
    ∃ e2, getBy VocabRecord.character (applyV u st) ch = some e2 ∧
      (isRate u = false → e2.rating = e.rating) ∧
      (isToggle u = false → ∀ b, e.bookmarked = some b → e2.bookmarked = some b) ∧
      (isImage u = false → e2.customImage = e.customImage) := by
  have hch : e.character = ch := getBy_key VocabRecord.character st ch e hget
  cases u with
  | rate c lv r n =>
    simp only [cardOK, Bool.and_eq_true, beq_iff_eq] at hOK
    obtain ⟨⟨hc, hb⟩, hf⟩ := hOK
    subst hc
    have hb2 : (c.bookmarked == none) = true := by simp [hb]
    have happ : applyV (VUpdate.rate c lv r n) st
        = putBy VocabRecord.character st
            { character := c.character, pinyin := c.pinyin, translation := c.translation,
              exampleSentence := c.exampleSentence,
              examplePinyin := some (jsOrStr c.examplePinyin ""),
              exampleTranslation := c.exampleTranslation, level := some lv,
              rating := some r, bookmarked := some (jsTruthy e.bookmarked),
              customImage := e.customImage, lastReviewed := some n } := by
      simp [applyV, saveVocabProgress, vocabState, emptyState, hf, hb, hget]
    rw [happ]
    refine ⟨_, getBy_putBy_self VocabRecord.character st _, ?_, ?_, ?_⟩
    · simp [isRate]
    · intro _ b hbb
      simp [hbb, jsTruthy]
    · intro _
      rfl
  | toggle c lv n =>
    simp only [cardOK, beq_iff_eq] at hOK
    subst hOK
    have happ : applyV (VUpdate.toggle c lv n) st
        = putBy VocabRecord.character st
            { character := c.character, pinyin := c.pinyin, translation := c.translation,
              exampleSentence := c.exampleSentence,
              examplePinyin := some (jsOrStr c.examplePinyin
                (jsOrStr e.examplePinyin "")),
              exampleTranslation := c.exampleTranslation, level := some lv,
              rating := e.rating, bookmarked := some (!(jsTruthy e.bookmarked)),
              customImage := e.customImage, lastReviewed := some n } := by
      simp [applyV, toggleVocabBookmark, vocabState, emptyState, hget]
    rw [happ]
    refine ⟨_, getBy_putBy_self VocabRecord.character st _, ?_, ?_, ?_⟩
    · intro _
      rfl
    · simp [isToggle]
    · intro _
      rfl
  | image c img =>
    simp only [cardOK, beq_iff_eq] at hOK
    subst hOK
    have happ : applyV (VUpdate.image c img) st
        = putBy VocabRecord.character st { e with customImage := some img } := by
      simp [applyV, saveVocabCustomImage, vocabState, emptyState, hget]
    rw [happ, ← hch]
    refine ⟨_, getBy_putBy_self VocabRecord.character st _, ?_, ?_, ?_⟩
    · intro _
      rfl
    · intro _ b hbb
      simpa using hbb
    · simp [isImage]

theorem applySeq_preserves (ch : String) (l : List VUpdate) (st : List VocabRecord)
    (e : VocabRecord) (hall : l.all (cardOK ch) = true)
    (hget : getBy VocabRecord.character st ch = some e) :
    ∃ e2, getBy VocabRecord.character (applySeq l st) ch = some e2 ∧
      (l.all (fun u => !isRate u) = true → e2.rating = e.rating) ∧
      (l.all (fun u => !isToggle u) = true →
        ∀ b, e.bookmarked = some b → e2.bookmarked = some b) ∧
      (l.all (fun u => !isImage u) = true → e2.customImage = e.customImage) := by
  induction l generalizing st e with
  | nil => exact ⟨e, hget, fun _ => rfl, fun _ b hb => hb, fun _ => rfl⟩
  | cons u l2 ih =>
    simp only [List.all_cons, Bool.and_eq_true] at hall
    obtain ⟨e1, hget1, hr1, hb1, hc1⟩ := applyV_preserves ch u st e hall.1 hget
    obtain ⟨e2, hget2, hr2, hb2, hc2⟩ := ih (applyV u st) e1 hall.2 hget1
    refine ⟨e2, hget2, ?_, ?_, ?_⟩
    · intro h
      simp only [List.all_cons, Bool.and_eq_true, Bool.not_eq_true'] at h
      rw [hr2 (by simp [h.2]), hr1 h.1]
    · intro h b hb
      simp only [List.all_cons, Bool.and_eq_true, Bool.not_eq_true'] at h
      exact hb2 (by simp [h.2]) b (hb1 h.1 b hb)
    · intro h
      simp only [List.all_cons, Bool.and_eq_true, Bool.not_eq_true'] at h
      rw [hc2 (by simp [h.2]), hc1 h.1]

theorem applyV_rate_result (ch : String) (c : VocabCard) (lv : HSKLevel) (r : Rating)
    (n : Nat) (st : List VocabRecord) (hOK : cardOK ch (VUpdate.rate c lv r n) = true) :
    ∃ e1, getBy VocabRecord.character (applyV (VUpdate.rate c lv r n) st) ch = some e1 ∧
      e1.rating = some r := by
  simp only [cardOK, Bool.and_eq_true, beq_iff_eq] at hOK
  obtain ⟨⟨hc, hb⟩, hf⟩ := hOK
  subst hc
  cases hg : getBy VocabRecord.character st c.character with
  | some e =>
    have happ : applyV (VUpdate.rate c lv r n) st
        = putBy VocabRecord.character st
            { character := c.character, pinyin := c.pinyin, translation := c.translation,
              exampleSentence := c.exampleSentence,
              examplePinyin := some (jsOrStr c.examplePinyin ""),
              exampleTranslation := c.exampleTranslation, level := some lv,
              rating := some r, bookmarked := some (jsTruthy e.bookmarked),
              customImage := e.customImage, lastReviewed := some n } := by
      simp [applyV, saveVocabProgress, vocabState, emptyState, hf, hb, hg]
    rw [happ]
    exact ⟨_, getBy_putBy_self VocabRecord.character st _, rfl⟩
  | none =>
    have happ : applyV (VUpdate.rate c lv r n) st
        = putBy VocabRecord.character st
            { character := c.character, pinyin := c.pinyin, translation := c.translation,
              exampleSentence := c.exampleSentence,
              examplePinyin := some (jsOrStr c.examplePinyin ""),
              exampleTranslation := c.exampleTranslation, level := some lv,
              rating := some r, bookmarked := some (jsTruthy c.bookmarked),
              customImage := c.customImage, lastReviewed := some n } := by
      simp [applyV, saveVocabProgress, vocabState, emptyState, hf, hg]
    rw [happ]
    exact ⟨_, getBy_putBy_self VocabRecord.character st _, rfl⟩

theorem applyV_toggle_result (ch : String) (c : VocabCard) (lv : HSKLevel)
    (n : Nat) (st : List VocabRecord) (hOK : cardOK ch (VUpdate.toggle c lv n) = true) :
    ∃ e1 b, getBy VocabRecord.character (applyV (VUpdate.toggle c lv n) st) ch = some e1 ∧
      e1.bookmarked = some b := by
  simp only [cardOK, beq_iff_eq] at hOK
  subst hOK
  cases hg : getBy VocabRecord.character st c.character with
  | some e =>
    have happ : applyV (VUpdate.toggle c lv n) st
        = putBy VocabRecord.character st
            { character := c.character, pinyin := c.pinyin, translation := c.translation,
              exampleSentence := c.exampleSentence,
              examplePinyin := some (jsOrStr c.examplePinyin (jsOrStr e.examplePinyin "")),
              exampleTranslation := c.exampleTranslation, level := some lv,
              rating := e.rating, bookmarked := some (!(jsTruthy e.bookmarked)),
              customImage := e.customImage, lastReviewed := some n } := by
      simp [applyV, toggleVocabBookmark, vocabState, emptyState, hg]
    rw [happ]
    exact ⟨_, _, getBy_putBy_self VocabRecord.character st _, rfl⟩
  | none =>
    have happ : applyV (VUpdate.toggle c lv n) st
        = putBy VocabRecord.character st
            { character := c.character, pinyin := c.pinyin, translation := c.translation,
              exampleSentence := c.exampleSentence,
              examplePinyin := some (jsOrStr c.examplePinyin (jsOrStr none "")),
              exampleTranslation := c.exampleTranslation, level := some lv,
              rating := none, bookmarked := some (!(jsTruthy c.bookmarked)),
              customImage := none, lastReviewed := some n } := by
      simp [applyV, toggleVocabBookmark, vocabState, emptyState, hg]
    rw [happ]
    exact ⟨_, _, getBy_putBy_self VocabRecord.character st _, rfl⟩

theorem applyV_image_result (ch : String) (c : VocabCard) (img : String)
    (st : List VocabRecord) (hOK : cardOK ch (VUpdate.image c img) = true) :
    ∃ e1, getBy VocabRecord.character (applyV (VUpdate.image c img) st) ch = some e1 ∧
      e1.customImage = some img := by
  simp only [cardOK, beq_iff_eq] at hOK
  subst hOK
  cases hg : getBy VocabRecord.character st c.character with
  | some e =>
    have hch : e.character = c.character := getBy_key VocabRecord.character st c.character e hg
    have happ : applyV (VUpdate.image c img) st
        = putBy VocabRecord.character st { e with customImage := some img } := by
      simp [applyV, saveVocabCustomImage, vocabState, emptyState, hg]
    rw [happ, ← hch]
    exact ⟨_, getBy_putBy_self VocabRecord.character st _, rfl⟩
  | none =>
    have happ : applyV (VUpdate.image c img) st
        = putBy VocabRecord.character st
            { character := c.character, pinyin := c.pinyin, translation := c.translation,
              exampleSentence := c.exampleSentence, examplePinyin := c.examplePinyin,
              exampleTranslation := c.exampleTranslation, level := none,
              rating := c.rating, bookmarked := c.bookmarked,
              customImage := some img, lastReviewed := none } := by
      simp [applyV, saveVocabCustomImage, vocabState, emptyState, hg]
    rw [happ]
    exact ⟨_, getBy_putBy_self VocabRecord.character st _, rfl⟩

/-- C1 (amended): merge-not-clobber for vocabulary under clean cards.  For
every sequence of partial updates to the same vocabulary character key on
the local path, provided every update's card addresses that character and
no rating update's card carries a stale value for a field it does not
touch (`bookmarked` undefined and `customImage` unset, so the coordinator's
optimistic read of the stored record fills them in), the stored record
after the sequence holds, for each of rating, bookmarked and customImage,
exactly the value set by the latest update that touched that field. -/
theorem vocab_merge_latest_update_wins (ch : String) (st : List VocabRecord)
    (l : List VUpdate) (hall : l.all (cardOK ch) = true) :
    (∀ (c : VocabCard) (lv : HSKLevel) (r : Rating) (n : Nat),
       cardOK ch (VUpdate.rate c lv r n) = true →
       l.all (fun u => !isRate u) = true →
       ∃ e2, getBy VocabRecord.character (applySeq l (applyV (VUpdate.rate c lv r n) st)) ch
           = some e2 ∧ e2.rating = some r) ∧
    (∀ (c : VocabCard) (lv : HSKLevel) (n : Nat),
       cardOK ch (VUpdate.toggle c lv n) = true →
       l.all (fun u => !isToggle u) = true →
       ∃ e1 e2 b,
         getBy VocabRecord.character (applyV (VUpdate.toggle c lv n) st) ch = some e1 ∧
         e1.bookmarked = some b ∧
         getBy VocabRecord.character (applySeq l (applyV (VUpdate.toggle c lv n) st)) ch
           = some e2 ∧ e2.bookmarked = some b) ∧
    (∀ (c : VocabCard) (img : String),
       cardOK ch (VUpdate.image c img) = true →
       l.all (fun u => !isImage u) = true →
       ∃ e2, getBy VocabRecord.character (applySeq l (applyV (VUpdate.image c img) st)) ch
           = some e2 ∧ e2.customImage = some img) := by
  refine ⟨?_, ?_, ?_⟩
  · intro c lv r n hOK hno
    obtain ⟨e1, hget1, hr1⟩ := applyV_rate_result ch c lv r n st hOK
    obtain ⟨e2, hget2, hr2, _, _⟩ := applySeq_preserves ch l _ e1 hall hget1
    exact ⟨e2, hget2, by rw [hr2 hno, hr1]⟩
  · intro c lv n hOK hno
    obtain ⟨e1, b, hget1, hb1⟩ := applyV_toggle_result ch c lv n st hOK
    obtain ⟨e2, hget2, _, hb2, _⟩ := applySeq_preserves ch l _ e1 hall hget1
    exact ⟨e1, e2, b, hget1, hb1, hget2, hb2 hno b hb1⟩
  · intro c img hOK hno
    obtain ⟨e1, hget1, hc1⟩ := applyV_image_result ch c img st hOK
    obtain ⟨e2, hget2, _, _, hc2⟩ := applySeq_preserves ch l _ e1 hall hget1
    exact ⟨e2, hget2, by rw [hc2 hno, hc1]⟩

/-- C1 counterexample: with a stale card the claim fails as stated.  A
bookmark toggle on an empty store writes bookmarked = true; a subsequent
rating update whose card still says `bookmarked: false` (a defined, stale
value, so the coordinator trusts it and skips the authoritative read)
rewrites the stored bookmark to false — an update that per the claim only
touched `rating` cleared the value set by the latest bookmark-touching
update. -/
theorem vocab_rating_clobbers_bookmark_counterexample :
    ((getBy VocabRecord.character
        (applyV (VUpdate.toggle ⟨"ni", "ni3", "you", "s", none, "t", none, some false, none⟩
          HSKLevel.hsk1 5) []) "ni").map VocabRecord.bookmarked = some (some true)) ∧
    ((getBy VocabRecord.character
        (applyV (VUpdate.rate ⟨"ni", "ni3", "you", "s", none, "t", none, some false, none⟩
            HSKLevel.hsk1 Rating.good 6)
          (applyV (VUpdate.toggle ⟨"ni", "ni3", "you", "s", none, "t", none, some false, none⟩
            HSKLevel.hsk1 5) [])) "ni").map VocabRecord.bookmarked = some (some false)) := by
  decide

theorem vocab_merge_latest_update_wins_witness :
    (([VUpdate.toggle ⟨"ni", "ni3", "you", "s", none, "t", none, none, none⟩
        HSKLevel.hsk1 7]).all (cardOK "ni") = true) ∧
    (cardOK "ni" (VUpdate.rate ⟨"ni", "ni3", "you", "s", none, "t", none, none, none⟩
        HSKLevel.hsk1 Rating.good 6) = true) ∧
    (([VUpdate.toggle ⟨"ni", "ni3", "you", "s", none, "t", none, none, none⟩
        HSKLevel.hsk1 7]).all (fun u => !isRate u) = true) ∧
    (∃ e2, getBy VocabRecord.character
        (applySeq [VUpdate.toggle ⟨"ni", "ni3", "you", "s", none, "t", none, none, none⟩
            HSKLevel.hsk1 7]
          (applyV (VUpdate.rate ⟨"ni", "ni3", "you", "s", none, "t", none, none, none⟩
            HSKLevel.hsk1 Rating.good 6) [])) "ni"
        = some e2 ∧ e2.rating = some Rating.good) :=
  ⟨by decide, by decide, by decide,
   (vocab_merge_latest_update_wins "ni" []
      [VUpdate.toggle ⟨"ni", "ni3", "you", "s", none, "t", none, none, none⟩ HSKLevel.hsk1 7]
      (by decide)).1
     ⟨"ni", "ni3", "you", "s", none, "t", none, none, none⟩ HSKLevel.hsk1 Rating.good 6
     (by decide) (by decide)⟩

/-- Any operation run with the breaker open attempts no remote calls and
leaves the breaker open. -/
theorem runOp_disabled (o : Op) (s : SyncState) (h : s.cloudDisabled = true) :
    (runOp o s).1.cloudDisabled = true ∧ (runOp o s).2 = [] := by
  cases o <;>
    simp only [runOp, saveResult, getRecentResults, saveVocabCustomImage, saveVocabProgress,
      toggleVocabBookmark, getBookmarkedWords, getVocabStats, getUserStats, getCachedAudio,
      saveCachedAudio, saveChatMessage, updateMessageAudio, getChatHistory, clearChatHistory,
      savePronunciationAttempt, getPronunciationHistory, saveUserGoals, getUserGoals,
      updateStudyTime, updateSpeakingTime, getDailyProgress, h, Bool.not_true, Bool.and_false,
      Bool.false_eq_true, if_false, Bool.or_true, if_true, Option.isNone] <;>
    try simp [h]
  case getCachedAudio t n out =>
    cases hg : getBy AudioEntry.text s.localAudio t with
    | some c => simp [hg, h]
    | none => simp [hg, h]
  case saveCachedAudio t a n u o1 o2 =>
    cases u with
    | none => simp
    | some uid => simp [h]
  case getDailyProgress d st u o1 o2 o3 =>
    cases hg : getBy DailyStat.date s.localStats d with
    | some c => simp [hg, h]
    | none => simp [hg, h]

/-- C2: circuit-breaker monotonicity.  `handleCloudError` opens the breaker
on a permission-denied-class error, and from any state in which the breaker
is open (`cloudDisabled = true`, as after any operation observed such an
error) every subsequent coordinator operation, across all entity families,
attempts zero remote-store calls — whatever outcome the remote store would
have given it — and leaves the breaker open for the rest of the process
lifetime. -/
theorem circuit_breaker_monotonic (s : SyncState) (ops : List Op)
    (h : s.cloudDisabled = true) :
    (∀ b, handleCloudError CloudErr.permissionDenied b = true) ∧
    (runOps ops s).1.cloudDisabled = true ∧ ∀ t ∈ (runOps ops s).2, t = [] := by
  refine ⟨fun b => rfl, ?_⟩
  induction ops generalizing s with
  | nil => exact ⟨h, by simp [runOps]⟩
  | cons o rest ih =>
    have h1 := runOp_disabled o s h
    have h2 := ih (runOp o s).1 h1.1
    refine ⟨h2.1, ?_⟩
    intro t ht
    simp only [runOps, List.mem_cons] at ht
    rcases ht with rfl | ht
    · exact h1.2
    · exact h2.2 t ht

theorem circuit_breaker_monotonic_witness :
    ({ emptyState with cloudDisabled := true } : SyncState).cloudDisabled = true ∧
    ((∀ b, handleCloudError CloudErr.permissionDenied b = true) ∧
     (runOps [Op.getRecentResults (some "u") none,
        Op.saveUserGoals ⟨1, 2, 3, 4⟩ (some "u") none]
        { emptyState with cloudDisabled := true }).1.cloudDisabled = true ∧
     ∀ t ∈ (runOps [Op.getRecentResults (some "u") none,
        Op.saveUserGoals ⟨1, 2, 3, 4⟩ (some "u") none]
        { emptyState with cloudDisabled := true }).2, t = []) :=
  ⟨rfl, circuit_breaker_monotonic _ _ rfl⟩

/-- C3 counterexample: not every remote-store call is wrapped in the 2000 ms
timeout combinator.  A concrete `savePronunciationAttempt` run (authenticated
user, closed breaker, remote reachable) attempts exactly one remote call and
that call carries no timeout at all. -/
theorem remote_call_unwrapped_counterexample :
    ((savePronunciationAttempt "w" "h" "p" 5 "f" 9 (some "u") none emptyState).2.map
       RemoteCall.timeoutMs) = [none] ∧ (none : Option Nat) ≠ some withTimeoutDefault :=
  ⟨rfl, by decide⟩

/-- C3 (amended): per-call timeout wrapping.  Every remote call any
coordinator operation attempts carries exactly the timeout `wrapPolicy`
assigns its context label — the results/vocabulary/user-stats/chat-history
family is wrapped with the 2000 ms `withTimeout` default, `getCachedAudio`
with an explicit 1500 ms, and the pronunciation/goals/daily-stats/audio-save
/chat-update/chat-clear calls are issued bare.  For a wrapped write such as
`saveResult`, a timeout rejection completes the operation via the local
path. -/
theorem remote_call_timeout_policy (o : Op) (s : SyncState) :
    (∀ rc ∈ (runOp o s).2, rc.timeoutMs = wrapPolicy rc.op) ∧
    (∀ (ty : ResType) (sc tot : Nat) (lv : HSKLevel) (d : String) (n : Nat) (uid : String),
      s.cloudDisabled = false →
      (saveResult ty sc tot lv d n (some uid) (some CloudErr.timeout) s).1.localResults
        = s.localResults ++ [⟨ty, sc, tot, lv, d, n⟩]) := by
  constructor
  · cases o <;>
      simp only [runOp, saveResult, getRecentResults, saveVocabCustomImage, saveVocabProgress,
        toggleVocabBookmark, getBookmarkedWords, getVocabStats, getUserStats, getCachedAudio,
        saveCachedAudio, saveChatMessage, updateMessageAudio, getChatHistory, clearChatHistory,
        savePronunciationAttempt, getPronunciationHistory, saveUserGoals, getUserGoals,
        updateStudyTime, updateSpeakingTime, getDailyProgress] <;>
      (repeat' split) <;>
      simp_all [wrapPolicy, withTimeoutDefault]
  · intro ty sc tot lv d n uid h
    simp [saveResult, h, handleCloudError]

theorem remote_call_timeout_policy_witness :
    ((⟨"saveResult", some withTimeoutDefault⟩ : RemoteCall) ∈
      (runOp (Op.saveResult ResType.quiz 1 2 HSKLevel.hsk1 "d" 3 (some "u") none)
        emptyState).2) ∧
    (⟨"saveResult", some withTimeoutDefault⟩ : RemoteCall).timeoutMs = wrapPolicy "saveResult" :=
  ⟨by decide,
   (remote_call_timeout_policy (Op.saveResult ResType.quiz 1 2 HSKLevel.hsk1 "d" 3
      (some "u") none) emptyState).1 _ (by decide)⟩

/-- C4 counterexample: with an authenticated user, a closed breaker, and a
successful remote write, `saveVocabProgress` performs no local write at all
(the record is absent from the local store afterwards), while
`saveUserGoals` does write the goals locally even though its remote write
succeeded — the exact opposite of the claimed per-entity mirror policy. -/
theorem local_mirroring_counterexample :
    (saveVocabProgress ⟨"ni", "ni3", "you", "s", none, "t", none, none, none⟩
        HSKLevel.hsk1 Rating.good 5 (some "u") none emptyState).1.localVocab = [] ∧
    (saveUserGoals ⟨1, 2, 3, 4⟩ (some "u") none emptyState).1.localGoals
      = some ⟨some 1, some 2, some 3, some 4⟩ := by decide

/-- C4 (amended): local mirroring policy.  `savePronunciationAttempt` and
`saveUserGoals` write the record to the local store unconditionally (for
every auth state and remote outcome), while `saveResult` and
`saveVocabProgress` write to the local store only when the remote write did
not succeed: on remote success the local store is untouched, on remote
failure the record is written locally. -/
theorem local_mirroring_policy (s : SyncState) :
    (∀ (w h p : String) (sc : Nat) (f : String) (t : Nat) (user : Option String)
       (out : Option CloudErr),
       getBy PronRecord.id
         (savePronunciationAttempt w h p sc f t user out s).1.localPron
         (w ++ "_" ++ toString t)
         = some ⟨w ++ "_" ++ toString t, w, h, p, sc, f, t⟩) ∧
    (∀ (g : UserGoals) (user : Option String) (out : Option CloudErr),
       (saveUserGoals g user out s).1.localGoals = some (PartialGoals.ofGoals g)) ∧
    (∀ (ty : ResType) (sc tot : Nat) (lv : HSKLevel) (d : String) (n : Nat) (uid : String),
       s.cloudDisabled = false →
       (saveResult ty sc tot lv d n (some uid) none s).1.localResults = s.localResults ∧
       ∀ e, (saveResult ty sc tot lv d n (some uid) (some e) s).1.localResults
              = s.localResults ++ [⟨ty, sc, tot, lv, d, n⟩]) ∧
    (∀ (c : VocabCard) (lv : HSKLevel) (r : Rating) (n : Nat) (uid : String),
       s.cloudDisabled = false →
       (saveVocabProgress c lv r n (some uid) none s).1.localVocab = s.localVocab) := by
  refine ⟨?_, ?_, ?_, ?_⟩
  · intro w h p sc f t user out
    unfold savePronunciationAttempt
    repeat' split
    all_goals exact getBy_putBy_self PronRecord.id _ _
  · intro g user out
    unfold saveUserGoals
    repeat' split
    all_goals rfl
  · intro ty sc tot lv d n uid h
    constructor
    · simp [saveResult, h]
    · intro e
      simp [saveResult, h]
  · intro c lv r n uid h
    simp [saveVocabProgress, h]

theorem local_mirroring_policy_witness :
    emptyState.cloudDisabled = false ∧
    getBy PronRecord.id
        (savePronunciationAttempt "w" "h" "p" 5 "f" 9 (some "u") none emptyState).1.localPron
        ("w" ++ "_" ++ toString 9)
      = some ⟨"w" ++ "_" ++ toString 9, "w", "h", "p", 5, "f", 9⟩ ∧
    (saveVocabProgress ⟨"ni", "ni3", "you", "s", none, "t", none, none, none⟩
        HSKLevel.hsk1 Rating.good 5 (some "u") none emptyState).1.localVocab
      = emptyState.localVocab :=
  ⟨rfl, (local_mirroring_policy emptyState).1 "w" "h" "p" 5 "f" 9 (some "u") none,
   (local_mirroring_policy emptyState).2.2.2 ⟨"ni", "ni3", "you", "s", none, "t", none,
      none, none⟩ HSKLevel.hsk1 Rating.good 5 "u" rfl⟩

/-- C5 counterexample: on a successful remote write, `toggleVocabBookmark`
inverts the caller's stale copy instead of consulting the authoritative
stored record.  Concretely: the stored record for the character is
bookmarked (`some true`), the caller's card says `some false`, the remote
write succeeds — and the call returns `true` (the inversion of the stale
card), although the toggle of the authoritative record's value is
`false`. -/
theorem bookmark_toggle_stale_counterexample :
    (toggleVocabBookmark ⟨"ni", "ni3", "you", "s", none, "t", none, some false, none⟩
        HSKLevel.hsk1 9 (some "u") none
        { emptyState with localVocab := [⟨"ni", "ni3", "you", "s", none, "t",
            some HSKLevel.hsk1, none, some true, none, some 1⟩] }).2.2 = true ∧
    (getBy VocabRecord.character [(⟨"ni", "ni3", "you", "s", none, "t",
        some HSKLevel.hsk1, none, some true, none, some 1⟩ : VocabRecord)] "ni").map
        VocabRecord.bookmarked = some (some true) ∧
    (⟨"ni", "ni3", "you", "s", none, "t", none, some false, none⟩ : VocabCard).bookmarked
      = some false ∧
    (!(jsTruthy (some true)) : Bool) = false := by decide

/-- C5 (amended): `toggleVocabBookmark` on the local path (guest, or failed
remote write) computes the new boolean by inverting the stored record's
value when one exists, falling back to the in-memory card otherwise, writes
it locally, and returns it; on a successful remote write it instead returns
the inversion of the caller's card copy and writes exactly that value to
the remote document.  On every path the returned boolean equals the
bookmarked value written. -/
theorem bookmark_toggle_written_value (c : VocabCard) (lv : HSKLevel) (n : Nat)
    (s : SyncState) :
    ((toggleVocabBookmark c lv n none none s).2.2
        = !(match getBy VocabRecord.character s.localVocab c.character with
            | some ex => jsTruthy ex.bookmarked
            | none => jsTruthy c.bookmarked) ∧
      (getBy VocabRecord.character (toggleVocabBookmark c lv n none none s).1.localVocab
          c.character).map VocabRecord.bookmarked
        = some (some (toggleVocabBookmark c lv n none none s).2.2)) ∧
    (∀ (uid : String) (e : CloudErr), s.cloudDisabled = false →
      (toggleVocabBookmark c lv n (some uid) (some e) s).2.2
        = !(match getBy VocabRecord.character s.localVocab c.character with
            | some ex => jsTruthy ex.bookmarked
            | none => jsTruthy c.bookmarked) ∧
      (getBy VocabRecord.character
          (toggleVocabBookmark c lv n (some uid) (some e) s).1.localVocab
          c.character).map VocabRecord.bookmarked
        = some (some (toggleVocabBookmark c lv n (some uid) (some e) s).2.2)) ∧
    (∀ uid : String, s.cloudDisabled = false →
      (toggleVocabBookmark c lv n (some uid) none s).2.2 = !(jsTruthy c.bookmarked) ∧
      (getBy Prod.fst (toggleVocabBookmark c lv n (some uid) none s).1.remoteVocab
          c.character).map (fun p => p.2.bookmarked)
        = some (some (toggleVocabBookmark c lv n (some uid) none s).2.2)) := by
  refine ⟨⟨?_, ?_⟩, fun uid e h => ⟨?_, ?_⟩, fun uid h => ⟨?_, ?_⟩⟩
  · simp [toggleVocabBookmark]
  · simp [toggleVocabBookmark, getBy_putBy_self]
  · simp [toggleVocabBookmark, h, handleCloudError]
  · simp [toggleVocabBookmark, h, handleCloudError, getBy_putBy_self]
  · simp [toggleVocabBookmark, h]
  · simp [toggleVocabBookmark, h, getBy_putBy_self]

theorem bookmark_toggle_written_value_witness :
    emptyState.cloudDisabled = false ∧
    (toggleVocabBookmark ⟨"ni", "ni3", "you", "s", none, "t", none, none, none⟩
        HSKLevel.hsk1 4 (some "u") none emptyState).2.2
      = !(jsTruthy (⟨"ni", "ni3", "you", "s", none, "t", none, none,
            none⟩ : VocabCard).bookmarked) :=
  ⟨rfl, ((bookmark_toggle_written_value ⟨"ni", "ni3", "you", "s", none, "t", none, none,
      none⟩ HSKLevel.hsk1 4 emptyState).2.2 "u" rfl).1⟩

/-- C7 counterexample: on a history of 51 stored messages with timestamps
0..50, `getChatHistory` (authenticated, breaker closed, remote success)
returns the 50 OLDEST messages — the message with timestamp 0 is included
and the most recent message (timestamp 50) is not — because
`orderBy('timestamp','asc').limit(50)` takes the first fifty in ascending
order, not the 50 most recent. -/
theorem chat_history_oldest_counterexample :
    (((getChatHistory (some "u") none { emptyState with remoteChat := chat51 }).2.2.map
        ChatMessage.id).contains "0" = true) ∧
    (((getChatHistory (some "u") none { emptyState with remoteChat := chat51 }).2.2.map
        ChatMessage.id).contains "50" = false) ∧
    ((getChatHistory (some "u") none { emptyState with remoteChat := chat51 }).2.2.length
      = 50) := by decide
end ChineseAD
namespace ChineseAD
/-- C7 (amended): chat history bound and order.  `getChatHistory` returns
the empty sequence for an unauthenticated user, an open breaker, or a
failed remote read; otherwise it returns at most 50 messages, the image of
the timestamp-ascending selection of stored documents, that selection is
sorted ascending, and it consists of the 50 EARLIEST stored messages: every
stored document outside the selection has a timestamp at least as large as
every selected one. -/
theorem chat_history_bound_order (user : Option String) (out : Option CloudErr)
    (s : SyncState) :
    (user = none → (getChatHistory user out s).2.2 = []) ∧
    (s.cloudDisabled = true → (getChatHistory user out s).2.2 = []) ∧
    (∀ e, out = some e → (getChatHistory user out s).2.2 = []) ∧
    ((getChatHistory user out s).2.2.length ≤ 50) ∧
    (List.Sorted (fun a b : ChatDoc => a.timestamp ≤ b.timestamp)
       ((sortChatAsc (s.remoteChat.map Prod.snd)).take 50)) ∧
    (∀ d ∈ s.remoteChat.map Prod.snd,
       d ∉ (sortChatAsc (s.remoteChat.map Prod.snd)).take 50 →
       ∀ d2 ∈ (sortChatAsc (s.remoteChat.map Prod.snd)).take 50,
         d2.timestamp ≤ d.timestamp) ∧
    (user.isSome = true → s.cloudDisabled = false → out = none →
       (getChatHistory user out s).2.2
         = ((sortChatAsc (s.remoteChat.map Prod.snd)).take 50).map (fun d =>
             ⟨d.id, d.role, d.text, d.image, d.audioData, none, d.groundingUrls⟩)) := by
  have hsorted : List.Sorted (fun a b : ChatDoc => a.timestamp ≤ b.timestamp)
      (sortChatAsc (s.remoteChat.map Prod.snd)) :=
    List.sorted_insertionSort _ _
  have htake : List.Sorted (fun a b : ChatDoc => a.timestamp ≤ b.timestamp)
      ((sortChatAsc (s.remoteChat.map Prod.snd)).take 50) :=
    hsorted.sublist (List.take_sublist _ _)
  refine ⟨?_, ?_, ?_, ?_, htake, ?_, ?_⟩
  · rintro rfl
    simp [getChatHistory]
  · intro h
    unfold getChatHistory
    simp [h]
  · rintro e rfl
    unfold getChatHistory
    by_cases h : (user.isNone || s.cloudDisabled) = true <;> simp [h]
  · unfold getChatHistory
    by_cases h : (user.isNone || s.cloudDisabled) = true
    · simp [h]
    · simp only [h, Bool.false_eq_true, if_false]
      cases out with
      | none =>
          simp only []
          exact le_trans (le_of_eq (List.length_map _ _)) (List.length_take_le _ _)
      | some e => simp
  · intro d hd hnot d2 hd2
    have hperm : List.Perm (sortChatAsc (s.remoteChat.map Prod.snd))
        (s.remoteChat.map Prod.snd) := List.perm_insertionSort _ _
    have hdin : d ∈ sortChatAsc (s.remoteChat.map Prod.snd) := hperm.mem_iff.mpr hd
    have hsplit := List.take_append_drop 50 (sortChatAsc (s.remoteChat.map Prod.snd))
    have h2 : List.Pairwise (fun a b : ChatDoc => a.timestamp ≤ b.timestamp)
        ((sortChatAsc (s.remoteChat.map Prod.snd)).take 50
          ++ (sortChatAsc (s.remoteChat.map Prod.snd)).drop 50) := by
      rw [hsplit]
      exact hsorted
    have h3 := (List.pairwise_append.mp h2).2.2
    rcases List.mem_append.mp (by rw [← hsplit] at hdin; exact hdin) with h | h
    · exact absurd h hnot
    · exact h3 d2 hd2 d h
  · rintro hu hdis rfl
    unfold getChatHistory
    have h0 : (user.isNone || s.cloudDisabled) = false := by
      simp [Option.isNone, hdis]
      cases user with
      | none => simp at hu
      | some uid => simp
    simp only [h0, Bool.false_eq_true, if_false]

theorem chat_history_bound_order_witness :
    (getChatHistory none none emptyState).2.2 = [] ∧
    (getChatHistory (some "u") none emptyState).2.2.length ≤ 50 :=
  ⟨(chat_history_bound_order none none emptyState).1 rfl,
   (chat_history_bound_order (some "u") none emptyState).2.2.2.1⟩

theorem handleCloudError_noPerm (e : CloudErr) (b : Bool)
    (h : outcomeNoPerm (some e) = true) : handleCloudError e b = b := by
  cases e <;> simp_all [outcomeNoPerm, handleCloudError]

theorem runOp_noPerm (o : Op) (s : SyncState) (h : opNoPerm o = true) :
    (runOp o s).1.cloudDisabled = s.cloudDisabled := by
  cases o <;>
    simp only [opNoPerm, Bool.and_eq_true] at h <;>
    simp only [runOp, saveResult, getRecentResults, saveVocabCustomImage, saveVocabProgress,
      toggleVocabBookmark, getBookmarkedWords, getVocabStats, getUserStats, getCachedAudio,
      saveCachedAudio, saveChatMessage, updateMessageAudio, getChatHistory, clearChatHistory,
      savePronunciationAttempt, getPronunciationHistory, saveUserGoals, getUserGoals,
      updateStudyTime, updateSpeakingTime, getDailyProgress] <;>
    (repeat' split) <;>
    simp_all [handleCloudError_noPerm]

/-- C8 counterexample: a transient (network-class) failure of
`saveChatMessage` does not fall back to any local path: the entire store
state — every local store included — is exactly unchanged (the breaker
stays closed and nothing is persisted anywhere), even though the remote
write was attempted and failed. -/
theorem chat_transient_no_local_counterexample :
    saveChatMessage ⟨"m1", Role.user, "hello", none, none, none, none⟩ 7 (some "u")
        (some CloudErr.network) emptyState
      = (emptyState, [⟨"saveChatMessage", some withTimeoutDefault⟩]) ∧
    CloudErr.network ≠ CloudErr.permissionDenied := by decide

/-- C8 (amended): transient errors never trip the breaker.  A remote
failure that is not permission-denied-class leaves the circuit breaker
exactly as it was (`handleCloudError` is the identity, and any operation
whose outcomes are all non-permission preserves `cloudDisabled`); a failing
call falls back to the local path when the operation has one (`saveResult`
writes the record locally on a transient failure; the chat operations have
no local path and simply do not persist); and with the breaker still
closed, the next coordinator operation attempts the remote store again
(`saveResult` always attempts exactly one remote call when authenticated
with the breaker closed). -/
theorem transient_error_breaker_closed :
    (∀ (e : CloudErr) (b : Bool), e ≠ CloudErr.permissionDenied → handleCloudError e b = b) ∧
    (∀ (o : Op) (s : SyncState), opNoPerm o = true →
       (runOp o s).1.cloudDisabled = s.cloudDisabled) ∧
    (∀ (ty : ResType) (sc tot : Nat) (lv : HSKLevel) (d : String) (n : Nat) (uid : String)
       (e : CloudErr) (s : SyncState), s.cloudDisabled = false →
       e ≠ CloudErr.permissionDenied →
       (saveResult ty sc tot lv d n (some uid) (some e) s).1.localResults
         = s.localResults ++ [⟨ty, sc, tot, lv, d, n⟩] ∧
       (saveResult ty sc tot lv d n (some uid) (some e) s).1.cloudDisabled = false) ∧
    (∀ (ty : ResType) (sc tot : Nat) (lv : HSKLevel) (d : String) (n : Nat) (uid : String)
       (out : Option CloudErr) (s : SyncState), s.cloudDisabled = false →
       (saveResult ty sc tot lv d n (some uid) out s).2
         = [⟨"saveResult", some withTimeoutDefault⟩]) := by
  refine ⟨?_, runOp_noPerm, ?_, ?_⟩
  · intro e b he
    simp [handleCloudError, he]
  · intro ty sc tot lv d n uid e s hdis he
    constructor
    · simp [saveResult, hdis]
    · simp [saveResult, hdis, handleCloudError, he]
  · intro ty sc tot lv d n uid out s hdis
    cases out <;> simp [saveResult, hdis]

theorem transient_error_breaker_closed_witness :
    CloudErr.timeout ≠ CloudErr.permissionDenied ∧
    handleCloudError CloudErr.timeout false = false :=
  ⟨by decide, transient_error_breaker_closed.1 CloudErr.timeout false (by decide)⟩

/-- C9: goal defaults with partial merge.  `defaultGoals` is exactly
{dailyWords 10, dailyMinutes 15, dailySpeakingMinutes 5,
dailyPronunciation 10}; `getUserGoals` on a store with no saved goals
returns exactly these defaults, and on a store holding a partially
populated goals object returns each saved field's value and each unset
field's default, on the local path (guest/open breaker) as well as on the
remote path (remote goals document present, or absent with fallback to the
local store). -/
theorem goal_defaults_merge (user : Option String) (out : Option CloudErr) (s : SyncState) :
    defaultGoals = ⟨10, 15, 5, 10⟩ ∧
    ((user = none ∨ s.cloudDisabled = true) →
      (s.localGoals = none → (getUserGoals user out s).2.2 = defaultGoals) ∧
      (∀ p, s.localGoals = some p →
        (getUserGoals user out s).2.2.dailyWords = p.dailyWords.getD 10 ∧
        (getUserGoals user out s).2.2.dailyMinutes = p.dailyMinutes.getD 15 ∧
        (getUserGoals user out s).2.2.dailySpeakingMinutes = p.dailySpeakingMinutes.getD 5 ∧
        (getUserGoals user out s).2.2.dailyPronunciation = p.dailyPronunciation.getD 10)) ∧
    (∀ uid, user = some uid → s.cloudDisabled = false → out = none →
      (∀ p, s.remoteGoals = some p →
        (getUserGoals user out s).2.2.dailyWords = p.dailyWords.getD 10 ∧
        (getUserGoals user out s).2.2.dailyMinutes = p.dailyMinutes.getD 15 ∧
        (getUserGoals user out s).2.2.dailySpeakingMinutes = p.dailySpeakingMinutes.getD 5 ∧
        (getUserGoals user out s).2.2.dailyPronunciation = p.dailyPronunciation.getD 10) ∧
      (s.remoteGoals = none → s.localGoals = none →
        (getUserGoals user out s).2.2 = defaultGoals) ∧
      (s.remoteGoals = none → ∀ p, s.localGoals = some p →
        (getUserGoals user out s).2.2.dailyWords = p.dailyWords.getD 10 ∧
        (getUserGoals user out s).2.2.dailyMinutes = p.dailyMinutes.getD 15 ∧
        (getUserGoals user out s).2.2.dailySpeakingMinutes = p.dailySpeakingMinutes.getD 5 ∧
        (getUserGoals user out s).2.2.dailyPronunciation = p.dailyPronunciation.getD 10)) := by
  refine ⟨rfl, ?_, ?_⟩
  · rintro (rfl | hdis)
    · constructor
      · intro hl
        simp [getUserGoals, hl]
      · intro p hl
        simp [getUserGoals, hl, mergeGoals, defaultGoals]
    · constructor
      · intro hl
        simp [getUserGoals, hl, hdis]
      · intro p hl
        simp [getUserGoals, hl, hdis, mergeGoals, defaultGoals]
  · rintro uid rfl hdis rfl
    refine ⟨?_, ?_, ?_⟩
    · intro p hr
      simp [getUserGoals, hr, hdis, mergeGoals, defaultGoals]
    · intro hr hl
      simp [getUserGoals, hr, hl, hdis]
    · intro hr p hl
      simp [getUserGoals, hr, hl, hdis, mergeGoals, defaultGoals]

theorem goal_defaults_merge_witness :
    emptyState.localGoals = none ∧
    (getUserGoals none none emptyState).2.2 = defaultGoals :=
  ⟨rfl, ((goal_defaults_merge none none emptyState).2.1 (Or.inl rfl)).1 rfl⟩

theorem audio_filter_take_isEmpty (l : List AudioDoc) (txt : String) :
    ((l.filter (fun d => d.text == txt)).take 1).isEmpty
      = (l.countP (fun d => d.text == txt) == 0) := by
  rw [List.countP_eq_length_filter]
  cases hf : l.filter (fun d => d.text == txt) with
  | nil => simp
  | cons x xs => simp

/-- C10: remote audio-cache deduplication.  `saveCachedAudio` always stores
the (text, audio) entry in the local durable cache; it never writes to the
remote shared collection when an entry for that exact text already exists;
when its existence query finds nothing (and the user is authenticated, the
breaker closed, and both remote calls succeed) it appends exactly one new
document; and a remote collection holding at most one entry per text still
holds at most one entry per text afterwards. -/
theorem audio_cache_dedup (txt aud : String) (now : Nat) (user : Option String)
    (outQ outAdd : Option CloudErr) (s : SyncState) :
    (getBy AudioEntry.text (saveCachedAudio txt aud now user outQ outAdd s).1.localAudio txt
       = some ⟨txt, aud, now⟩) ∧
    (0 < s.remoteAudio.countP (fun d => d.text == txt) →
       (saveCachedAudio txt aud now user outQ outAdd s).1.remoteAudio = s.remoteAudio) ∧
    (∀ uid, user = some uid → s.cloudDisabled = false → outQ = none → outAdd = none →
       s.remoteAudio.countP (fun d => d.text == txt) = 0 →
       (saveCachedAudio txt aud now user outQ outAdd s).1.remoteAudio
         = s.remoteAudio ++ [⟨txt, aud, now, uid⟩]) ∧
    (∀ t, s.remoteAudio.countP (fun d => d.text == t) ≤ 1 →
       (saveCachedAudio txt aud now user outQ outAdd s).1.remoteAudio.countP
         (fun d => d.text == t) ≤ 1) := by
  refine ⟨?_, ?_, ?_, ?_⟩
  · unfold saveCachedAudio
    dsimp only
    repeat' split
    all_goals exact getBy_putBy_self AudioEntry.text _ _
  · intro hpos
    have hne : ((s.remoteAudio.filter (fun d => d.text == txt)).take 1).isEmpty = false := by
      rw [audio_filter_take_isEmpty]
      simp [Nat.pos_iff_ne_zero.mp hpos]
    unfold saveCachedAudio
    rcases user with _ | uid
    · rfl
    · by_cases hd : s.cloudDisabled = true
      · simp [hd]
      · simp only [Bool.not_eq_true] at hd
        rcases outQ with _ | e
        · simp [hd, hne]
        · simp [hd]
  · rintro uid rfl hdis rfl rfl hcnt
    have hemp : ((s.remoteAudio.filter (fun d => d.text == txt)).take 1).isEmpty = true := by
      rw [audio_filter_take_isEmpty]
      simp [hcnt]
    simp [saveCachedAudio, hdis, hemp]
  · intro t hle
    unfold saveCachedAudio
    rcases user with _ | uid
    · simpa using hle
    · by_cases hd : s.cloudDisabled = true
      · simp [hd]
        exact hle
      · simp only [Bool.not_eq_true] at hd
        rcases outQ with _ | e
        · by_cases hemp : ((s.remoteAudio.filter (fun d => d.text == txt)).take 1).isEmpty = true
          · rcases outAdd with _ | e2
            · simp only [hd, hemp, if_true, Bool.false_eq_true, if_false]
              rw [audio_filter_take_isEmpty] at hemp
              have hcnt0 : s.remoteAudio.countP (fun d => d.text == txt) = 0 := by
                simpa using hemp
              simp only [List.countP_append]
              by_cases ht : (txt == t) = true
              · have : txt = t := by simpa using ht
                subst this
                simp [hcnt0, List.countP_cons]
              · have ht2 : (txt == t) = false := by simpa using ht
                simp [List.countP_cons, ht2]
                exact hle
            · simp [hd, hemp]
              exact hle
          · have hemp2 : ((s.remoteAudio.filter (fun d => d.text == txt)).take 1).isEmpty = false := by
              simpa using hemp
            simp [hd, hemp2]
            exact hle
        · simp [hd]
          exact hle

theorem audio_cache_dedup_witness :
    emptyState.remoteAudio.countP (fun d => d.text == "t") = 0 ∧
    (saveCachedAudio "t" "a" 5 (some "u") none none emptyState).1.remoteAudio
      = emptyState.remoteAudio ++ [⟨"t", "a", 5, "u"⟩] :=
  ⟨rfl, (audio_cache_dedup "t" "a" 5 (some "u") none none emptyState).2.2.1 "u" rfl rfl
     rfl rfl rfl⟩

/-- C6: bounded recency of results.  For every store state and either serving
path, `getRecentResults` returns at most 20 records, ordered newest first
(timestamps non-increasing along the returned sequence). -/
theorem recent_results_bounded_sorted (user : Option String) (out : Option CloudErr)
    (s : SyncState) :
    (getRecentResults user out s).2.2.length ≤ 20 ∧
    List.Sorted (fun a b : ResultRecord => b.timestamp ≤ a.timestamp)
      (getRecentResults user out s).2.2 := by
  unfold getRecentResults
  by_cases hu : (user.isSome && !s.cloudDisabled) = true
  · rw [if_pos hu]
    cases out with
    | none => exact sortResultsDesc_take_spec s.remoteResults 20
    | some e => exact sortResultsDesc_take_spec s.localResults 20
  · rw [if_neg hu]
    exact sortResultsDesc_take_spec s.localResults 20

end ChineseAD
